import Mathlib

/-!
Shallow embedding of the webAPI repository: the `HttpClient` transport
adapters (two variants: `src/HttpClient.js` and the unnamed
`src/unnamed/part_000`) and the `ApiService` retry/error-normalization
orchestrator (`src/ApiService.js`).

JavaScript values that flow through the code are modelled by `JsVal`;
thrown errors by `RawErr`; the retry loop `tryRequest` by the fuel
recursion `runFrom` (fuel = remaining retries, which the source tracks as
`retries - attempts`).  Instrumentation (number of thunk invocations,
total delay waited) is carried alongside the result so that the
observable retry behavior can be stated.
-/

/-- A JavaScript/JSON value, as far as the repository manipulates them. -/
inductive JsVal where
  | vundefined
  | vnull
  | vbool (b : Bool)
  | vnum (n : Int)
  | vstr (s : String)
  | vlist (elems : List JsVal)
  | vobj (fields : List (String × JsVal))
deriving Repr

/-- Property read `v.key` on a value already known not to be null or
undefined: defined fields of an object, `undefined` otherwise (the
repository never accesses built-in properties).  The general member
access, which throws a TypeError on null/undefined, is `jsMemberAccess`;
the guarded access `v?.key` is `optGet`. -/
def jsGetField (v : JsVal) (key : String) : JsVal :=
  match v with
  | .vobj fields =>
    match fields.lookup key with
    | some x => x
    | none => .vundefined
  | _ => .vundefined

/-- Optional chaining `v?.key`: `undefined` when `v` is null/undefined,
plain access otherwise. -/
def optGet (v : JsVal) (key : String) : JsVal :=
  match v with
  | .vundefined => .vundefined
  | .vnull => .vundefined
  | _ => jsGetField v key

/-- Whether a value is null or undefined — the values on which a member
access throws. -/
def isNullish : JsVal → Bool
  | .vnull => true
  | .vundefined => true
  | _ => false

/-- JavaScript truthiness of a value (`NaN` is not modelled; numbers are
integers here). -/
def jsTruthy : JsVal → Bool
  | .vundefined => false
  | .vnull => false
  | .vbool b => b
  | .vnum n => n != 0
  | .vstr s => s != ""
  | .vlist _ => true
  | .vobj _ => true

/-- JavaScript string coercion, used by `new Error(data.message || ...)`.
Array elements join with a comma, a null or undefined element
contributing the empty string, as `Array.prototype.join` does. -/
def jsToString : JsVal → String
  | .vundefined => "undefined"
  | .vnull => "null"
  | .vbool b => if b then "true" else "false"
  | .vnum n => toString n
  | .vstr s => s
  | .vlist elems =>
    String.intercalate "," (elems.attach.map (fun e =>
      if isNullish e.1 then "" else jsToString e.1))
  | .vobj _ => "[object Object]"
decreasing_by
  simp only [JsVal.vlist.sizeOf_spec]
  have := List.sizeOf_lt_of_mem e.2
  omega

/-- A thrown JavaScript error, with the optional expando fields the
repository reads or writes (`status`, `statusText`, `url`, `data`).
A field is `none` when the thrown value does not carry it. -/
structure RawErr where
  message : Option String := none
  status : Option Nat := none
  statusText : Option String := none
  url : Option String := none
  data : Option JsVal := none
deriving Repr

/-- The TypeError thrown by a member access on null or undefined.  The
message text is engine-specific; what matters here is that it carries no
status, data, statusText or url field. -/
def typeErrorRead (base key : String) : RawErr :=
  { message := some ("TypeError: cannot read properties of " ++ base ++ " reading " ++ key) }

/-- The general member access `v.key`: a TypeError when `v` is null or
undefined, a plain property read otherwise. -/
def jsMemberAccess (v : JsVal) (key : String) : Except RawErr JsVal :=
  match v with
  | .vnull => .error (typeErrorRead "null" key)
  | .vundefined => .error (typeErrorRead "undefined" key)
  | _ => .ok (jsGetField v key)

/-! ## Header objects and object spread -/

/-- A header object, by its lookup semantics. -/
def HeaderMap : Type := String → Option String

/-- Spread of an optional header object over an existing one:
`{...a, ...b}` where spreading `undefined` contributes nothing and a key
present in `b` wins. -/
def hSpread (a : HeaderMap) (b : Option HeaderMap) : HeaderMap :=
  fun k =>
    match b with
    | some hb =>
      match hb k with
      | some v => some v
      | none => a k
    | none => a k

/-- The built-in default header object of part_000's `_fetch`:
`{'Accept': 'application/json'}`. -/
def acceptDefault : HeaderMap :=
  fun k => if k = "Accept" then some "application/json" else none

/-- A fetch options object, restricted to the keys the repository
manipulates.  `none` models the key being absent. -/
structure JsOptions where
  method : Option String := none
  headers : Option HeaderMap := none

/-- Object spread `{...a, ...b}` on options objects: a key present in `b`
overrides the one from `a`. -/
def optsSpread (a b : JsOptions) : JsOptions :=
  { method := match b.method with | some m => some m | none => a.method
    headers := match b.headers with | some h => some h | none => a.headers }

/-! ## part_000 `HttpClient` (the variant whose `get` consumes `params`) -/

/-- UTF-8 encoding of a character, as a list of byte values. -/
def utf8Bytes (c : Char) : List Nat :=
  let n := c.toNat
  if n < 0x80 then [n]
  else if n < 0x800 then [0xC0 + n / 64, 0x80 + n % 64]
  else if n < 0x10000 then [0xE0 + n / 4096, 0x80 + (n / 64) % 64, 0x80 + n % 64]
  else [0xF0 + n / 262144, 0x80 + (n / 4096) % 64, 0x80 + (n / 64) % 64, 0x80 + n % 64]

/-- Bytes kept verbatim by the `application/x-www-form-urlencoded`
serializer used by `URLSearchParams.toString`: ASCII alphanumerics and
`*`, `-`, `.`, `_`. -/
def formSafeByte (b : Nat) : Bool :=
  (0x30 ≤ b && b ≤ 0x39) || (0x41 ≤ b && b ≤ 0x5A) || (0x61 ≤ b && b ≤ 0x7A) ||
    b == 0x2A || b == 0x2D || b == 0x2E || b == 0x5F

/-- Uppercase hexadecimal digit for a value below 16. -/
def hexDigitChar (n : Nat) : Char :=
  if n < 10 then Char.ofNat (48 + n) else Char.ofNat (55 + n)

/-- Serialization of one byte: space becomes `+`, safe bytes stay, the
rest are percent-encoded. -/
def encodeFormByte (b : Nat) : String :=
  if b == 0x20 then "+"
  else if formSafeByte b then String.singleton (Char.ofNat b)
  else "%" ++ String.singleton (hexDigitChar (b / 16)) ++ String.singleton (hexDigitChar (b % 16))

/-- `application/x-www-form-urlencoded` encoding of one string. -/
def urlFormEncode (s : String) : String :=
  String.join ((s.data.flatMap utf8Bytes).map encodeFormByte)

/-- `new URLSearchParams(params).toString()`: `k=v` pairs joined by `&`,
keys and values form-urlencoded, in object insertion order. -/
def serializeParams : List (String × String) → String
  | [] => ""
  | [(k, v)] => urlFormEncode k ++ "=" ++ urlFormEncode v
  | (k, v) :: p :: rest => urlFormEncode k ++ "=" ++ urlFormEncode v ++ "&" ++ serializeParams (p :: rest)

/-- part_000 `_buildUrl(endpoint, params)`: always concatenates
`baseUrl + endpoint`, then appends `?` and the serialized query string
when it is nonempty (string truthiness). -/
def buildUrl000 (baseUrl endpoint : String) (params : List (String × String)) : String :=
  let queryString := serializeParams params
  baseUrl ++ endpoint ++ (if queryString = "" then "" else "?" ++ queryString)

/-- part_000 `get(endpoint, options)` builds `{ method: 'GET', ...options }`
before delegating to `_fetch`. -/
def getOptions000 (options : JsOptions) : JsOptions :=
  optsSpread { method := some "GET" } options

/-- part_000 `_fetch` builds
`{ headers: {Accept, ...defaultOptions.headers, ...options.headers}, ...options }`;
because `...options` is spread after the `headers:` property, an
`options.headers` key replaces the merged object wholesale. -/
def finalOptions000 (defaultOptions options : JsOptions) : JsOptions :=
  let merged := hSpread (hSpread acceptDefault defaultOptions.headers) options.headers
  optsSpread { headers := some merged } options

/-- The header object part_000 actually hands to `fetch` (absent `headers`
key reads as the empty header set). -/
def effectiveHeaders000 (defaultOptions options : JsOptions) : HeaderMap :=
  match (finalOptions000 defaultOptions options).headers with
  | some h => h
  | none => fun _ => none

/-- The header merge described by the specification: built-in
`Accept: application/json`, then adapter-level defaults, then per-call
headers, later wins key-wise.  Kept separate from the source model so the
two can be compared. -/
def specHeaderMerge (defaultOptions options : JsOptions) : HeaderMap :=
  hSpread (hSpread acceptDefault defaultOptions.headers) options.headers

/-- What the external `fetch` hands back, with the body-reading
capabilities modelled as fields: `jsonResult` is what `response.json()`
would produce (`Except.error` when the body is not valid JSON, carrying
the rejection), `textResult` what `response.text()` would produce. -/
structure FetchResponse where
  status : Nat
  statusText : String
  url : String
  contentType : Option String
  jsonResult : Except RawErr JsVal
  textResult : String

/-- `response.ok`: status in [200, 300). -/
def respOk (r : FetchResponse) : Bool :=
  200 ≤ r.status && r.status < 300

/-- The sentinel body part_000 substitutes when `response.json()` fails. -/
def sentinelBody : JsVal :=
  .vobj [("message", .vstr "Invalid JSON response.")]

/-- part_000's `data`: the JSON-decoded body, or the sentinel on decode
failure — computed unconditionally, before the `ok` check. -/
def decodedBody (resp : FetchResponse) : JsVal :=
  match resp.jsonResult with
  | .ok d => d
  | .error _ => sentinelBody

/-- `data.message || 'HTTP error'` with JavaScript truthiness and string
coercion, for a body `data` that is not null or undefined (on a nullish
body the member access itself throws; see `fetchPart000`). -/
def errMessageOf (data : JsVal) : String :=
  let m := jsGetField data "message"
  if jsTruthy m then jsToString m else "HTTP error"

/-- part_000 `_fetch` after the `fetch` call: always attempt JSON
decoding (sentinel on failure); then, on a non-ok status, throw an
`Error(data.message || 'HTTP error')` with `status` and `data` attached —
except that the access `data.message` itself throws a TypeError when the
body decoded to JSON null, and that TypeError (with no status or data
attached) is what escapes; otherwise return the decoded data. -/
def fetchPart000 (resp : FetchResponse) : Except RawErr JsVal :=
  let data := decodedBody resp
  if respOk resp then Except.ok data
  else
    match jsMemberAccess data "message" with
    | .error typeErr => Except.error typeErr
    | .ok m =>
      Except.error
        { message := some (if jsTruthy m then jsToString m else "HTTP error")
          status := some resp.status
          data := some data }

/-! ## `HttpClient.js` (the documented fetch-adapter variant) -/

/-- Character-list version of `String.startsWith` (second argument is the
candidate leading string). -/
def charsLead : List Char → List Char → Bool
  | _, [] => true
  | [], _ :: _ => false
  | c :: cs, d :: ds => c == d && charsLead cs ds

/-- `s.startsWith(p)`. -/
def strLeads (s p : String) : Bool :=
  charsLead s.data p.data

/-- `HttpClient.js` `buildUrl(endpoint)`: the endpoint verbatim when it
starts with `"http"`, otherwise `baseUrl + endpoint`.  No query-parameter
handling exists in this variant. -/
def buildUrlJs (baseUrl endpoint : String) : String :=
  if strLeads endpoint "http" then endpoint else baseUrl ++ endpoint

/-- `HttpClient.js` `request` option merge:
`{...this.defaultOptions, ...options}` (whole-key override, no built-in
defaults). -/
def requestOptionsJs (defaultOptions options : JsOptions) : JsOptions :=
  optsSpread defaultOptions options

/-- `contentType.includes('application/json')`. -/
def ctIncludesJson (ct : String) : Bool :=
  decide ("application/json".data <:+: ct.data)

/-- `HttpClient.js` `request` after the `fetch` call: on a non-ok status
throw the plain object `{status, statusText, url}`; otherwise JSON-decode
when the declared content type includes `application/json` (a decode
rejection propagates — the surrounding catch rethrows), else return the
body as text. -/
def requestJsFetch (resp : FetchResponse) : Except RawErr JsVal :=
  if !(respOk resp) then
    Except.error
      { status := some resp.status
        statusText := some resp.statusText
        url := some resp.url }
  else
    match resp.contentType with
    | some ct =>
      if ctIncludesJson ct then resp.jsonResult
      else Except.ok (.vstr resp.textResult)
    | none => Except.ok (.vstr resp.textResult)

/-! ## `ApiService` retry orchestrator -/

/-- The fixed status-to-message table of `getErrorMessageByStatus`. -/
def statusMessages (status : Nat) : Option String :=
  if status = 400 then some "잘못된 요청입니다."
  else if status = 401 then some "인증이 필요합니다."
  else if status = 403 then some "접근이 거부되었습니다."
  else if status = 404 then some "데이터를 찾을 수 없습니다."
  else if status = 429 then some "요청이 너무 많습니다. 나중에 다시 시도하세요."
  else if status = 500 then some "서버 오류가 발생했습니다."
  else none

/-- JavaScript `x || fallback` on an optional string (an empty string is
falsy; an absent entry reads as `undefined`). -/
def jsStringOr (v : Option String) (fallback : String) : String :=
  match v with
  | some s => if s = "" then fallback else s
  | none => fallback

/-- `getErrorMessageByStatus(status, fallback)`: `messages[status] || fallback`. -/
def getErrorMessageByStatus (status : Nat) (fallback : String) : String :=
  jsStringOr (statusMessages status) fallback

/-- The message of the final enhanced error:
`err.status ? getErrorMessageByStatus(err.status, errorMessage) : errorMessage`
(with JavaScript truthiness: an absent or zero status is falsy). -/
def enhancedMessageFor (errorMessage : String) (e : RawErr) : String :=
  match e.status with
  | some s => if s ≠ 0 then getErrorMessageByStatus s errorMessage else errorMessage
  | none => errorMessage

/-- One invocation of the request thunk, indexed by invocation number. -/
inductive ThunkOutcome (ρ : Type) where
  | ok (res : ρ)
  | fail (err : RawErr)

/-- The per-call configuration of `ApiService.request`, with the source's
defaults. -/
structure ReqConfig (ρ α : Type) where
  retries : Nat := 1
  retryDelay : Nat := 1000
  errorMessage : String := "API request failed."
  transformResponse : ρ → α
  validateStatus : Option (ρ → Bool) := none

/-- The error thrown by the custom-validation branch of `tryRequest`. -/
def validationFailedError : RawErr :=
  { message := some "Custom validation failed." }

/-- The body of `tryRequest`'s `try` block on invocation `k`: run the
thunk; on success, reject via `validateStatus` when present, else apply
`transformResponse`. -/
def attemptOnce {ρ α : Type} (cfg : ReqConfig ρ α) (thunk : Nat → ThunkOutcome ρ) (k : Nat) :
    Except RawErr α :=
  match thunk k with
  | .fail e => .error e
  | .ok res =>
    match cfg.validateStatus with
    | some validate =>
      if validate res then .ok (cfg.transformResponse res) else .error validationFailedError
    | none => .ok (cfg.transformResponse res)

/-- The final outcome of `ApiService.request`. -/
inductive ReqResult (α : Type) where
  | success (value : α)
  | enhancedFailure (message : String) (originalError : RawErr)

/-- A run outcome together with its observable retry behavior: how many
times the thunk was invoked and how much delay was awaited. -/
structure RunResult (α : Type) where
  result : ReqResult α
  invocations : Nat
  totalDelay : Nat

/-- The recursion of `tryRequest`: `attempts` invocations already failed,
`remaining = retries - attempts` retries are left.  A failure with budget
remaining waits `retryDelay` and recurses; with the budget exhausted it
wraps the last raw error into the enhanced failure. -/
def runFrom {ρ α : Type} (cfg : ReqConfig ρ α) (thunk : Nat → ThunkOutcome ρ)
    (attempts : Nat) : Nat → RunResult α
  | 0 =>
    match attemptOnce cfg thunk attempts with
    | .ok v => { result := .success v, invocations := 1, totalDelay := 0 }
    | .error e =>
      { result := .enhancedFailure (enhancedMessageFor cfg.errorMessage e) e
        invocations := 1
        totalDelay := 0 }
  | r + 1 =>
    match attemptOnce cfg thunk attempts with
    | .ok v => { result := .success v, invocations := 1, totalDelay := 0 }
    | .error _ =>
      let rest := runFrom cfg thunk (attempts + 1) r
      { result := rest.result
        invocations := rest.invocations + 1
        totalDelay := rest.totalDelay + cfg.retryDelay }

/-- `ApiService.request(requestFn, config)`. -/
def request {ρ α : Type} (thunk : Nat → ThunkOutcome ρ) (cfg : ReqConfig ρ α) : RunResult α :=
  runFrom cfg thunk 0 cfg.retries

/-! ## The retry loop with a transform that may itself throw

`transformResponse(res)` runs inside the same `try` as the request, so a
throwing transform feeds the catch/retry branch like any other failure.
`ReqConfig` above is the special case of a transform that cannot throw;
the pipeline below carries a fallible transform. -/

/-- A per-call configuration whose response transform may throw. -/
structure ReqConfigT (ρ α : Type) where
  retries : Nat := 1
  retryDelay : Nat := 1000
  errorMessage : String := "API request failed."
  transformResponse : ρ → Except RawErr α
  validateStatus : Option (ρ → Bool) := none

/-- The body of `tryRequest`'s `try` block for a fallible transform. -/
def attemptOnceT {ρ α : Type} (cfg : ReqConfigT ρ α) (thunk : Nat → ThunkOutcome ρ) (k : Nat) :
    Except RawErr α :=
  match thunk k with
  | .fail e => .error e
  | .ok res =>
    match cfg.validateStatus with
    | some validate =>
      if validate res then cfg.transformResponse res else .error validationFailedError
    | none => cfg.transformResponse res

/-- The recursion of `tryRequest` for a fallible transform, as `runFrom`. -/
def runFromT {ρ α : Type} (cfg : ReqConfigT ρ α) (thunk : Nat → ThunkOutcome ρ)
    (attempts : Nat) : Nat → RunResult α
  | 0 =>
    match attemptOnceT cfg thunk attempts with
    | .ok v => { result := .success v, invocations := 1, totalDelay := 0 }
    | .error e =>
      { result := .enhancedFailure (enhancedMessageFor cfg.errorMessage e) e
        invocations := 1
        totalDelay := 0 }
  | r + 1 =>
    match attemptOnceT cfg thunk attempts with
    | .ok v => { result := .success v, invocations := 1, totalDelay := 0 }
    | .error _ =>
      let rest := runFromT cfg thunk (attempts + 1) r
      { result := rest.result
        invocations := rest.invocations + 1
        totalDelay := rest.totalDelay + cfg.retryDelay }

/-- `ApiService.request(requestFn, config)` with a fallible transform. -/
def requestT {ρ α : Type} (thunk : Nat → ThunkOutcome ρ) (cfg : ReqConfigT ρ α) : RunResult α :=
  runFromT cfg thunk 0 cfg.retries

/-! ## `ApiService.getWeatherData` -/

/-- The value of the optional chain `res.response?.body?.items?.item` for
a response `res` that is itself not null or undefined. -/
def weatherItemChain (res : JsVal) : JsVal :=
  optGet (optGet (optGet (jsGetField res "response") "body") "items") "item"

/-- `getWeatherData`'s transform `res => res.response?.body?.items?.item || []`:
the root access `res.response` is unguarded and throws a TypeError when
`res` is null or undefined; the remaining accesses are guarded by
optional chaining. -/
def transformWeather (res : JsVal) : Except RawErr JsVal :=
  match jsMemberAccess res "response" with
  | .error e => .error e
  | .ok r =>
    let item := optGet (optGet (optGet r "body") "items") "item"
    .ok (if jsTruthy item then item else .vlist [])

/-- The configuration `getWeatherData` passes to `request` when the caller
supplies no overrides. -/
def weatherConfig : ReqConfigT JsVal JsVal :=
  { errorMessage := "기상 데이터 조회에 실패했습니다."
    transformResponse := transformWeather }

/-- `ApiService.getWeatherData(params)` with default options, over an
abstract stream of per-invocation outcomes of the bound thunk. -/
def getWeatherData (thunk : Nat → ThunkOutcome JsVal) : RunResult JsVal :=
  requestT thunk weatherConfig

/-! ## Concrete sample values used to instantiate the theorems -/

/-- The identity transform, the source's default `d => d`. -/
def idTransform : JsVal → JsVal := fun d => d

/-- A validator rejecting every response. -/
def rejectAllValidator : JsVal → Bool := fun _ => false

/-- A thunk that always succeeds with an empty object. -/
def emptyObjThunk : Nat → ThunkOutcome JsVal := fun _ => ThunkOutcome.ok (JsVal.vobj [])

/-- A thunk that always fails with the custom-validation error. -/
def validationFailThunk : Nat → ThunkOutcome JsVal := fun _ => ThunkOutcome.fail validationFailedError

/-- A rejecting-validator configuration with one retry. -/
def cfgRejectSample : ReqConfig JsVal JsVal :=
  { retries := 1, retryDelay := 5, errorMessage := "API request failed."
    transformResponse := idTransform, validateStatus := some rejectAllValidator }

/-- The same configuration without a validator. -/
def cfgPlainSample : ReqConfig JsVal JsVal :=
  { retries := 1, retryDelay := 5, errorMessage := "API request failed."
    transformResponse := idTransform, validateStatus := none }

/-- Adapter construction with no default headers. -/
def sampleDefaults : JsOptions := {}

/-- A per-call header object that does not mention `Accept`. -/
def sampleCallHeaders : HeaderMap :=
  fun k => if k = "X-Custom-Key" then some "1" else none

/-- Per-call options carrying the header object above. -/
def sampleCallOptions : JsOptions := { headers := some sampleCallHeaders }

/-- A JSON body with a message field, as an upstream error body. -/
def okJsonBody : JsVal := JsVal.vobj [("message", JsVal.vstr "Not found in upstream")]

/-- A non-ok (404) response whose JSON body decodes fine. -/
def notFoundResp : FetchResponse :=
  { status := 404, statusText := "Not Found", url := "http://apis.example/x"
    contentType := some "application/json", jsonResult := Except.ok okJsonBody
    textResult := "" }

/-- The rejection `response.json()` produces on a non-JSON body. -/
def badJsonErr : RawErr := { message := some "Unexpected token h in JSON at position 0" }

/-- An ok response declared `text/plain` whose body is not valid JSON. -/
def plainTextResp : FetchResponse :=
  { status := 200, statusText := "OK", url := "http://apis.example/t"
    contentType := some "text/plain", jsonResult := Except.error badJsonErr
    textResult := "hello" }

/-- An ok response declared JSON whose body fails to decode. -/
def badJsonResp : FetchResponse :=
  { status := 200, statusText := "OK", url := "http://apis.example/j"
    contentType := some "application/json", jsonResult := Except.error badJsonErr
    textResult := "not json" }

/-- An ok response declared JSON that decodes fine. -/
def okJsonResp : FetchResponse :=
  { status := 200, statusText := "OK", url := "http://apis.example/k"
    contentType := some "application/json", jsonResult := Except.ok okJsonBody
    textResult := "" }

/-- A non-ok response whose body is the JSON document `null`. -/
def nullBodyResp : FetchResponse :=
  { status := 500, statusText := "Internal Server Error", url := "http://apis.example/n"
    contentType := some "application/json", jsonResult := Except.ok JsVal.vnull
    textResult := "null" }

/-- A weather response whose `items` level is missing. -/
def weatherRespNoItems : JsVal :=
  JsVal.vobj [("response", JsVal.vobj [("body", JsVal.vobj [])])]

/-- A weather response carrying one item. -/
def weatherRespItems : JsVal :=
  JsVal.vobj [("response", JsVal.vobj [("body",
    JsVal.vobj [("items", JsVal.vobj [("item", JsVal.vlist [JsVal.vnum 7])])])])]

/-- A thunk that always succeeds with the items-missing weather response. -/
def weatherNoItemsThunk : Nat → ThunkOutcome JsVal :=
  fun _ => ThunkOutcome.ok weatherRespNoItems

/-- A thunk that always succeeds with the one-item weather response. -/
def weatherItemsThunk : Nat → ThunkOutcome JsVal :=
  fun _ => ThunkOutcome.ok weatherRespItems

/-- A thunk that always succeeds with the JSON body `null` — reachable
via an ok response whose body is the document `null`. -/
def nullRespThunk : Nat → ThunkOutcome JsVal :=
  fun _ => ThunkOutcome.ok JsVal.vnull

/-! ## Helper lemmas about the retry recursion -/

/-- Any level of the retry recursion returns immediately on a successful,
validated attempt: one invocation, no delay. -/
theorem runFrom_ok {ρ α : Type} (cfg : ReqConfig ρ α) (thunk : Nat → ThunkOutcome ρ)
    (attempts remaining : Nat) (v : α) (h : attemptOnce cfg thunk attempts = Except.ok v) :
    runFrom cfg thunk attempts remaining =
      { result := ReqResult.success v, invocations := 1, totalDelay := 0 } := by
  cases remaining <;> simp [runFrom, h]

/-- When every attempt resolves to the same error, the retry recursion
burns its whole budget: `remaining + 1` invocations, `remaining` delays,
and the enhanced failure wrapping that error. -/
theorem runFrom_const_error {ρ α : Type} (cfg : ReqConfig ρ α) (thunk : Nat → ThunkOutcome ρ)
    (e : RawErr) (h : ∀ k, attemptOnce cfg thunk k = Except.error e) (attempts remaining : Nat) :
    runFrom cfg thunk attempts remaining =
      { result := ReqResult.enhancedFailure (enhancedMessageFor cfg.errorMessage e) e
        invocations := remaining + 1
        totalDelay := remaining * cfg.retryDelay } := by
  induction remaining generalizing attempts with
  | zero => simp [runFrom, h attempts]
  | succ r ih => simp [runFrom, h attempts, ih (attempts + 1), Nat.succ_mul]

/-- When every attempt fails (not necessarily with the same error), the
retry recursion still makes exactly `remaining + 1` invocations. -/
theorem runFrom_error_counts {ρ α : Type} (cfg : ReqConfig ρ α) (thunk : Nat → ThunkOutcome ρ)
    (h : ∀ k, ∃ e, attemptOnce cfg thunk k = Except.error e) (attempts remaining : Nat) :
    (runFrom cfg thunk attempts remaining).invocations = remaining + 1 := by
  induction remaining generalizing attempts with
  | zero =>
    obtain ⟨e, he⟩ := h attempts
    simp [runFrom, he]
  | succ r ih =>
    obtain ⟨e, he⟩ := h attempts
    simp [runFrom, he, ih (attempts + 1)]

/-- As `runFrom_ok`, for the fallible-transform pipeline. -/
theorem runFromT_ok {ρ α : Type} (cfg : ReqConfigT ρ α) (thunk : Nat → ThunkOutcome ρ)
    (attempts remaining : Nat) (v : α) (h : attemptOnceT cfg thunk attempts = Except.ok v) :
    runFromT cfg thunk attempts remaining =
      { result := ReqResult.success v, invocations := 1, totalDelay := 0 } := by
  cases remaining <;> simp [runFromT, h]

/-- As `runFrom_const_error`, for the fallible-transform pipeline. -/
theorem runFromT_const_error {ρ α : Type} (cfg : ReqConfigT ρ α) (thunk : Nat → ThunkOutcome ρ)
    (e : RawErr) (h : ∀ k, attemptOnceT cfg thunk k = Except.error e) (attempts remaining : Nat) :
    runFromT cfg thunk attempts remaining =
      { result := ReqResult.enhancedFailure (enhancedMessageFor cfg.errorMessage e) e
        invocations := remaining + 1
        totalDelay := remaining * cfg.retryDelay } := by
  induction remaining generalizing attempts with
  | zero => simp [runFromT, h attempts]
  | succ r ih => simp [runFromT, h attempts, ih (attempts + 1), Nat.succ_mul]

/-- The serialized query string of a nonempty parameter list is nonempty. -/
theorem serializeParams_cons_ne_empty (p : String × String) (ps : List (String × String)) :
    serializeParams (p :: ps) ≠ "" := by
  obtain ⟨k, v⟩ := p
  intro hcontra
  cases ps with
  | nil =>
    have hlen := congrArg String.length hcontra
    simp [serializeParams, String.length_append] at hlen
    exact absurd hlen.1.2 (by decide)
  | cons q rest =>
    have hlen := congrArg String.length hcontra
    simp [serializeParams, String.length_append] at hlen
    exact absurd hlen.1.1.1.2 (by decide)

/-! ## Claim theorems -/

/-- C1: for every non-negative `N`, `ApiService.request` with
`retries = N` and a thunk failing on every invocation invokes the thunk
exactly `N + 1` times, waits `N` delays, and ends in the enhanced
failure wrapping the last raw error; with the default `retries = 1` this
is `2` total attempts. -/
theorem request_failing_thunk_attempt_count
    (N retryDelay : Nat) (errorMessage : String) (transform : JsVal → JsVal)
    (validate : Option (JsVal → Bool)) (e : RawErr) :
    request (fun _ => ThunkOutcome.fail e)
        { retries := N, retryDelay := retryDelay, errorMessage := errorMessage
          transformResponse := transform, validateStatus := validate } =
      { result := ReqResult.enhancedFailure (enhancedMessageFor errorMessage e) e
        invocations := N + 1
        totalDelay := N * retryDelay } := by
  simpa [request] using
    runFrom_const_error
      { retries := N, retryDelay := retryDelay, errorMessage := errorMessage
        transformResponse := transform, validateStatus := validate }
      (fun _ => ThunkOutcome.fail e) e (fun _ => rfl) 0 N

/-- C2: running `ApiService.request` with a validator that rejects every
response is observationally identical (result, invocation count, delay)
to running it with a thunk that always throws the validation error; and
for any thunk under a rejecting validator, as for any outright-failing
thunk, the number of attempts is the full `retries + 1` budget. -/
theorem validator_reject_equiv_thunk_failure
    (retries retryDelay : Nat) (errorMessage : String) (transform : JsVal → JsVal)
    (v : JsVal → Bool) (res : JsVal) (thunk : Nat → ThunkOutcome JsVal) (e : RawErr)
    (hv : ∀ r, v r = false) :
    request (fun _ => ThunkOutcome.ok res)
        { retries := retries, retryDelay := retryDelay, errorMessage := errorMessage
          transformResponse := transform, validateStatus := some v } =
      request (fun _ => ThunkOutcome.fail validationFailedError)
        { retries := retries, retryDelay := retryDelay, errorMessage := errorMessage
          transformResponse := transform, validateStatus := none } ∧
    (request thunk
        { retries := retries, retryDelay := retryDelay, errorMessage := errorMessage
          transformResponse := transform, validateStatus := some v }).invocations =
      retries + 1 ∧
    (request (fun _ => ThunkOutcome.fail e)
        { retries := retries, retryDelay := retryDelay, errorMessage := errorMessage
          transformResponse := transform, validateStatus := none }).invocations =
      retries + 1 := by
  refine ⟨?_, ?_, ?_⟩
  · simp only [request]
    rw [runFrom_const_error
        { retries := retries, retryDelay := retryDelay, errorMessage := errorMessage
          transformResponse := transform, validateStatus := some v }
        (fun _ => ThunkOutcome.ok res) validationFailedError
        (fun k => by simp [attemptOnce, hv]) 0 retries]
    rw [runFrom_const_error
        { retries := retries, retryDelay := retryDelay, errorMessage := errorMessage
          transformResponse := transform, validateStatus := none }
        (fun _ => ThunkOutcome.fail validationFailedError) validationFailedError
        (fun k => rfl) 0 retries]
  · exact runFrom_error_counts _ thunk
      (fun k => by
        cases hth : thunk k with
        | ok r => exact ⟨validationFailedError, by simp [attemptOnce, hth, hv]⟩
        | fail err => exact ⟨err, by simp [attemptOnce, hth]⟩) 0 retries
  · exact runFrom_error_counts
      { retries := retries, retryDelay := retryDelay, errorMessage := errorMessage
        transformResponse := transform, validateStatus := none }
      (fun _ => ThunkOutcome.fail e) (fun k => ⟨e, rfl⟩) 0 retries

/-- C2 witness: the equivalence and the attempt counts at a concrete
configuration with one retry. -/
theorem validator_reject_equiv_thunk_failure_witness :
    request emptyObjThunk cfgRejectSample = request validationFailThunk cfgPlainSample ∧
    (request emptyObjThunk cfgRejectSample).invocations = 1 + 1 ∧
    (request validationFailThunk cfgPlainSample).invocations = 1 + 1 :=
  validator_reject_equiv_thunk_failure 1 5 "API request failed." idTransform
    rejectAllValidator (JsVal.vobj []) emptyObjThunk validationFailedError (fun _ => rfl)

/-- C3: on exhaustion, a last failure carrying status 404 yields the
table's 404 message, an unmapped status such as 418 yields the supplied
fallback, and the table has dedicated entries exactly for 400, 401, 403,
404, 429 and 500. -/
theorem final_failure_status_message
    (retries retryDelay : Nat) (fallback : String) (transform : JsVal → JsVal)
    (m1 m2 st1 st2 u1 u2 : Option String) (d1 d2 : Option JsVal) (s : Nat) :
    (request (fun _ => ThunkOutcome.fail ⟨m1, some 404, st1, u1, d1⟩)
        { retries := retries, retryDelay := retryDelay, errorMessage := fallback
          transformResponse := transform, validateStatus := none }).result =
      ReqResult.enhancedFailure "데이터를 찾을 수 없습니다." ⟨m1, some 404, st1, u1, d1⟩ ∧
    (request (fun _ => ThunkOutcome.fail ⟨m2, some 418, st2, u2, d2⟩)
        { retries := retries, retryDelay := retryDelay, errorMessage := fallback
          transformResponse := transform, validateStatus := none }).result =
      ReqResult.enhancedFailure fallback ⟨m2, some 418, st2, u2, d2⟩ ∧
    ((statusMessages s).isSome ↔ s = 400 ∨ s = 401 ∨ s = 403 ∨ s = 404 ∨ s = 429 ∨ s = 500) := by
  refine ⟨?_, ?_, ?_⟩
  · simp only [request]
    rw [runFrom_const_error
        { retries := retries, retryDelay := retryDelay, errorMessage := fallback
          transformResponse := transform, validateStatus := none }
        (fun _ => ThunkOutcome.fail ⟨m1, some 404, st1, u1, d1⟩)
        ⟨m1, some 404, st1, u1, d1⟩ (fun _ => rfl) 0 retries]
    simp [enhancedMessageFor, getErrorMessageByStatus, statusMessages, jsStringOr]
  · simp only [request]
    rw [runFrom_const_error
        { retries := retries, retryDelay := retryDelay, errorMessage := fallback
          transformResponse := transform, validateStatus := none }
        (fun _ => ThunkOutcome.fail ⟨m2, some 418, st2, u2, d2⟩)
        ⟨m2, some 418, st2, u2, d2⟩ (fun _ => rfl) 0 retries]
    simp [enhancedMessageFor, getErrorMessageByStatus, statusMessages, jsStringOr]
  · unfold statusMessages
    split_ifs <;> simp_all

/-- C8: with `retries = 0` and a thunk failing on its single invocation,
there is exactly one attempt, no delay, and the immediate enhanced
failure carries that raw failure as its cause. -/
theorem zero_retries_single_attempt
    (retryDelay : Nat) (errorMessage : String) (transform : JsVal → JsVal)
    (validate : Option (JsVal → Bool)) (e : RawErr) (rest : Nat → ThunkOutcome JsVal) :
    request (fun i => if i = 0 then ThunkOutcome.fail e else rest i)
        { retries := 0, retryDelay := retryDelay, errorMessage := errorMessage
          transformResponse := transform, validateStatus := validate } =
      { result := ReqResult.enhancedFailure (enhancedMessageFor errorMessage e) e
        invocations := 1
        totalDelay := 0 } := by
  simp [request, runFrom, attemptOnce]

/-- C9: a thunk failing twice then succeeding, run with
`retries = k + 2 ≥ 2` and no validator, returns the transformed success
after 3 invocations and 2 delays; a thunk always succeeding with body
`{a: 1}` and transform `r => r.a` returns `1` on the first attempt with
zero delay, for every retry configuration. -/
theorem success_path_applies_transform
    (k retryDelay retries2 retryDelay2 : Nat) (errorMessage errorMessage2 : String)
    (transform : JsVal → JsVal) (e : RawErr) (res : JsVal) :
    request (fun i => if i < 2 then ThunkOutcome.fail e else ThunkOutcome.ok res)
        { retries := k + 2, retryDelay := retryDelay, errorMessage := errorMessage
          transformResponse := transform, validateStatus := none } =
      { result := ReqResult.success (transform res), invocations := 3
        totalDelay := 2 * retryDelay } ∧
    request (fun _ => ThunkOutcome.ok (JsVal.vobj [("a", JsVal.vnum 1)]))
        { retries := retries2, retryDelay := retryDelay2, errorMessage := errorMessage2
          transformResponse := fun r => jsGetField r "a", validateStatus := none } =
      { result := ReqResult.success (JsVal.vnum 1), invocations := 1, totalDelay := 0 } := by
  constructor
  · show runFrom _ _ 0 (k + 1 + 1) = _
    have h2 : runFrom
        { retries := k + 2, retryDelay := retryDelay, errorMessage := errorMessage
          transformResponse := transform, validateStatus := none }
        (fun i => if i < 2 then ThunkOutcome.fail e else ThunkOutcome.ok res) 2 k =
        { result := ReqResult.success (transform res), invocations := 1, totalDelay := 0 } :=
      runFrom_ok _ _ 2 k (transform res) rfl
    simp [runFrom, attemptOnce, h2]
    omega
  · exact runFrom_ok _ _ 0 retries2 (JsVal.vnum 1) rfl

/-- C10 counterexample: a successful response whose body is the JSON
document `null` is accepted by the default configuration and its item
chain is absent at the root, yet `getWeatherData` does not resolve to
`[]`: the unguarded access `res.response` throws a TypeError inside the
`try`, so the run retries (2 invocations, one default delay) and ends in
the enhanced failure wrapping that TypeError. -/
theorem weather_null_response_counterexample :
    getWeatherData nullRespThunk =
      { result := ReqResult.enhancedFailure "기상 데이터 조회에 실패했습니다."
          (typeErrorRead "null" "response")
        invocations := 2
        totalDelay := 1000 } ∧
    ReqResult.enhancedFailure "기상 데이터 조회에 실패했습니다." (typeErrorRead "null" "response") ≠
      ReqResult.success (JsVal.vlist []) :=
  ⟨rfl, fun h => ReqResult.noConfusion h⟩

/-- C10 amended: for every successful response that is not null or
undefined, `getWeatherData`'s default configuration accepts it on the
first attempt with zero delay, resolving to `[]` when the chain
`res.response?.body?.items?.item` is undefined and to the item list when
the chain yields one; a null response instead makes the unguarded root
access throw on every attempt, so the run burns the whole retry budget
and fails with the enhanced failure wrapping the TypeError. -/
theorem weather_items_transform (res : JsVal) (xs : List JsVal) (retries retryDelay : Nat) :
    (isNullish res = false → weatherItemChain res = JsVal.vundefined →
      getWeatherData (fun _ => ThunkOutcome.ok res) =
        { result := ReqResult.success (JsVal.vlist []), invocations := 1, totalDelay := 0 }) ∧
    (isNullish res = false → weatherItemChain res = JsVal.vlist xs →
      getWeatherData (fun _ => ThunkOutcome.ok res) =
        { result := ReqResult.success (JsVal.vlist xs), invocations := 1, totalDelay := 0 }) ∧
    requestT (fun _ => ThunkOutcome.ok JsVal.vnull)
        { retries := retries, retryDelay := retryDelay
          errorMessage := "기상 데이터 조회에 실패했습니다."
          transformResponse := transformWeather, validateStatus := none } =
      { result := ReqResult.enhancedFailure "기상 데이터 조회에 실패했습니다."
          (typeErrorRead "null" "response")
        invocations := retries + 1
        totalDelay := retries * retryDelay } := by
  refine ⟨?_, ?_, ?_⟩
  · intro hn hchain
    unfold weatherItemChain at hchain
    have htrans : transformWeather res = Except.ok (JsVal.vlist []) := by
      cases res <;> simp_all [transformWeather, jsMemberAccess, isNullish, jsTruthy]
    exact runFromT_ok weatherConfig _ 0 weatherConfig.retries _
      (by simp [attemptOnceT, weatherConfig, htrans])
  · intro hn hchain
    unfold weatherItemChain at hchain
    have htrans : transformWeather res = Except.ok (JsVal.vlist xs) := by
      cases res <;> simp_all [transformWeather, jsMemberAccess, isNullish, jsTruthy]
    exact runFromT_ok weatherConfig _ 0 weatherConfig.retries _
      (by simp [attemptOnceT, weatherConfig, htrans])
  · simp only [requestT]
    rw [runFromT_const_error
        { retries := retries, retryDelay := retryDelay
          errorMessage := "기상 데이터 조회에 실패했습니다."
          transformResponse := transformWeather, validateStatus := none }
        (fun _ => ThunkOutcome.ok JsVal.vnull) (typeErrorRead "null" "response")
        (fun k => rfl) 0 retries]
    rfl

/-- C10 witness: the amended success cases at concrete responses — the
items-missing response resolves to `[]` and the one-item response to its
item list, first attempt, zero delay. -/
theorem weather_items_transform_witness :
    getWeatherData weatherNoItemsThunk =
      { result := ReqResult.success (JsVal.vlist []), invocations := 1, totalDelay := 0 } ∧
    getWeatherData weatherItemsThunk =
      { result := ReqResult.success (JsVal.vlist [JsVal.vnum 7])
        invocations := 1, totalDelay := 0 } :=
  ⟨(weather_items_transform weatherRespNoItems [] 0 0).1 rfl rfl,
   (weather_items_transform weatherRespItems [JsVal.vnum 7] 0 0).2.1 rfl rfl⟩

/-- C4 counterexample: with no adapter-level default headers and a
per-call header object that does not mention `Accept`, the header object
actually handed to `fetch` has no `Accept` entry — the `...options`
spread written after the `headers:` property replaces the merged object
wholesale — although the merge the specification describes would keep
`Accept: application/json`. -/
theorem header_merge_clobber_counterexample :
    effectiveHeaders000 sampleDefaults (getOptions000 sampleCallOptions) "Accept" = none ∧
    specHeaderMerge sampleDefaults (getOptions000 sampleCallOptions) "Accept" =
      some "application/json" ∧
    sampleCallHeaders "Accept" = none ∧
    sampleCallHeaders "X-Custom-Key" = some "1" :=
  ⟨rfl, rfl, rfl, rfl⟩

/-- C4 amended: when the per-call options carry a `headers` key, the
effective headers are exactly that per-call object; only when they carry
none is the effective set the key-wise merge of the built-in `Accept`
default with the adapter-level defaults (so the built-in `Accept`
survives only in that case).  `HttpClient.js`'s `request` likewise
replaces the `headers` key wholesale and has no built-in default. -/
theorem header_merge_amended (dm om : Option String) (dh h : HeaderMap) (k : String) :
    effectiveHeaders000 ⟨dm, some dh⟩ ⟨om, some h⟩ = h ∧
    effectiveHeaders000 ⟨dm, some dh⟩ ⟨om, none⟩ k = hSpread acceptDefault (some dh) k ∧
    effectiveHeaders000 ⟨dm, none⟩ ⟨om, none⟩ "Accept" = some "application/json" ∧
    (requestOptionsJs ⟨dm, some dh⟩ ⟨om, some h⟩).headers = some h :=
  ⟨rfl, rfl, rfl, rfl⟩

/-- C5 counterexample: part_000's `_buildUrl` — the builder behind every
`ApiService` request — prepends the base URL even when the endpoint is
already an absolute URL with a recognizable scheme prefix. -/
theorem absolute_endpoint_not_verbatim_counterexample :
    buildUrl000 "http://apis.data.go.kr/1360000/AsosDalyInfoService/" "http://other.example/x" [] =
      "http://apis.data.go.kr/1360000/AsosDalyInfoService/http://other.example/x" ∧
    strLeads "http://other.example/x" "http" = true :=
  ⟨rfl, rfl⟩

/-- C5 amended: part_000's `_buildUrl` always concatenates base URL and
endpoint, appending the url-encoded query string after `?` exactly when
parameters are supplied; the verbatim rule for endpoints starting with
`http` exists only in `HttpClient.js`'s `buildUrl`, which handles no
query parameters. -/
theorem url_resolution_amended (b endp : String) (p : String × String)
    (ps : List (String × String)) :
    buildUrl000 b endp [] = b ++ endp ∧
    buildUrl000 b endp (p :: ps) = b ++ endp ++ ("?" ++ serializeParams (p :: ps)) ∧
    buildUrlJs "http://a/" "http://b/y" = "http://b/y" ∧
    buildUrlJs "http://a/" "path" = "http://a/path" ∧
    serializeParams [("a b", "c&d"), ("서울", "눈")] = "a+b=c%26d&%EC%84%9C%EC%9A%B8=%EB%88%88" := by
  refine ⟨?_, ?_, rfl, rfl, rfl⟩
  · simp [buildUrl000, serializeParams]
  · simp [buildUrl000, serializeParams_cons_ne_empty p ps]

/-- C6 counterexample: on a non-ok response, the error thrown by
part_000's `_fetch` carries the status code and the decoded body, but
neither the status text nor the resolved URL. -/
theorem transport_error_fields_counterexample :
    fetchPart000 notFoundResp =
      Except.error { message := some "Not found in upstream", status := some 404
                     statusText := none, url := none, data := some okJsonBody } ∧
    respOk notFoundResp = false := by
  refine ⟨?_, rfl⟩
  simp [fetchPart000, decodedBody, respOk, notFoundResp, okJsonBody, errMessageOf,
    jsMemberAccess, jsGetField, jsTruthy, jsToString]

/-- C6 amended: on a non-ok response, `HttpClient.js`'s `request` throws
the plain object `{status, statusText, url}`; part_000's `_fetch`, when
the decoded body is not nullish, throws an `Error` carrying the status
code and the decoded body (message taken from the body) but no status
text and no URL — and when the body decoded to JSON null, the access
`data.message` itself throws a TypeError carrying no status and no body
at all. -/
theorem transport_error_fields_amended (resp : FetchResponse) (hnotok : respOk resp = false) :
    requestJsFetch resp =
      Except.error { status := some resp.status, statusText := some resp.statusText
                     url := some resp.url } ∧
    (isNullish (decodedBody resp) = false →
      fetchPart000 resp =
        Except.error { message := some (errMessageOf (decodedBody resp))
                       status := some resp.status, data := some (decodedBody resp) }) ∧
    (decodedBody resp = JsVal.vnull →
      fetchPart000 resp = Except.error (typeErrorRead "null" "message")) := by
  refine ⟨?_, ?_, ?_⟩
  · simp [requestJsFetch, hnotok]
  · intro h
    cases hd : decodedBody resp <;>
      simp_all [fetchPart000, jsMemberAccess, isNullish, errMessageOf, hnotok]
  · intro h
    simp [fetchPart000, h, jsMemberAccess, hnotok]

/-- C6 witness: the amended error shapes at a concrete 404 response with
an object body and at a concrete 500 response with body `null`. -/
theorem transport_error_fields_amended_witness :
    requestJsFetch notFoundResp =
      Except.error { status := some 404, statusText := some "Not Found"
                     url := some "http://apis.example/x" } ∧
    fetchPart000 notFoundResp =
      Except.error { message := some "Not found in upstream", status := some 404
                     data := some okJsonBody } ∧
    fetchPart000 nullBodyResp = Except.error (typeErrorRead "null" "message") := by
  refine ⟨(transport_error_fields_amended notFoundResp rfl).1, ?_,
    (transport_error_fields_amended nullBodyResp rfl).2.2 rfl⟩
  simpa [decodedBody, notFoundResp, okJsonBody, errMessageOf, jsMemberAccess, jsGetField,
    jsTruthy, jsToString] using (transport_error_fields_amended notFoundResp rfl).2.1 rfl

/-- C7 counterexample: part_000 ignores the declared content type — a
`text/plain` body that is not valid JSON comes back as the sentinel
object rather than as the plain text — and `HttpClient.js` fails the call
on a JSON decode failure instead of substituting the sentinel. -/
theorem content_type_decoding_counterexample :
    fetchPart000 plainTextResp = Except.ok sentinelBody ∧
    sentinelBody ≠ JsVal.vstr "hello" ∧
    requestJsFetch badJsonResp = Except.error badJsonErr :=
  ⟨rfl, fun h => JsVal.noConfusion h, rfl⟩

/-- C7 amended: part_000 always attempts JSON decoding regardless of the
declared content type, substituting the sentinel body on decode failure
and never returning plain text; `HttpClient.js` inspects the content
type — decoding as JSON when it includes `application/json`, propagating
a decode failure as a failed call — and returns plain text otherwise. -/
theorem content_type_decoding_amended (resp : FetchResponse) (d : JsVal) (e : RawErr)
    (ct : String) (hok : respOk resp = true) :
    (resp.jsonResult = Except.error e → fetchPart000 resp = Except.ok sentinelBody) ∧
    (resp.jsonResult = Except.ok d → fetchPart000 resp = Except.ok d) ∧
    (resp.contentType = none → requestJsFetch resp = Except.ok (JsVal.vstr resp.textResult)) ∧
    (resp.contentType = some ct → ctIncludesJson ct = false →
      requestJsFetch resp = Except.ok (JsVal.vstr resp.textResult)) ∧
    (resp.contentType = some ct → ctIncludesJson ct = true →
      requestJsFetch resp = resp.jsonResult) := by
  refine ⟨?_, ?_, ?_, ?_, ?_⟩
  · intro h
    simp [fetchPart000, decodedBody, h, hok]
  · intro h
    simp [fetchPart000, decodedBody, h, hok]
  · intro h
    simp [requestJsFetch, h, hok]
  · intro h hct
    simp [requestJsFetch, h, hct, hok]
  · intro h hct
    simp [requestJsFetch, h, hct, hok]

/-- C7 witness: the amended decoding behavior at concrete responses. -/
theorem content_type_decoding_amended_witness :
    fetchPart000 plainTextResp = Except.ok sentinelBody ∧
    fetchPart000 okJsonResp = Except.ok okJsonBody ∧
    requestJsFetch plainTextResp = Except.ok (JsVal.vstr "hello") ∧
    requestJsFetch okJsonResp = Except.ok okJsonBody :=
  ⟨(content_type_decoding_amended plainTextResp okJsonBody badJsonErr "text/plain" rfl).1 rfl,
   (content_type_decoding_amended okJsonResp okJsonBody badJsonErr "application/json" rfl).2.1 rfl,
   (content_type_decoding_amended plainTextResp okJsonBody badJsonErr "text/plain" rfl).2.2.2.1
     rfl (by decide),
   (content_type_decoding_amended okJsonResp okJsonBody badJsonErr "application/json" rfl).2.2.2.2
     rfl (by decide)⟩
